import Mathlib

/-
Verification of the dawn command-registration and dispatch layer.

The definitions below are a shallow embedding of the registry, reconciler and
dispatcher code in src/dawn (bot.py, internals.py, slash.py, extensions.py).
Stateful methods become functions from explicit state to a trace of issued
REST calls paired with the raised exception (if any); Python dicts become
association lists with insertion-order semantics; Python truthiness of lists
and None is modelled explicitly.
-/

namespace Dawn

/-- Wire-level option kinds (hikari.OptionType). -/
inductive OptionType where
  | STRING
  | INTEGER
  | FLOAT
  | BOOLEAN
  | USER
  | ROLE
  | CHANNEL
  | ATTACHMENT
  | SUB_COMMAND
  | SUB_COMMAND_GROUP
deriving DecidableEq, Repr

/-- A flat command option (hikari.CommandOption restricted to the fields the
code reads: kind, name, description); used for ordinary command parameters. -/
structure CommandOption where
  type : OptionType
  name : String
  description : String
deriving DecidableEq, Repr

/-- A sub-command option: a CommandOption of kind SUB_COMMAND carrying nested
plain options, as built by SlashSubCommand._build_as_option.  The nested list
is optional because hikari reports absent options as None. -/
structure SubCommandOption where
  type : OptionType
  name : String
  description : String
  options : Option (List CommandOption)
deriving DecidableEq, Repr

/-- The only part of an Extension the reconciler reads: its default_guilds
(None when not configured). -/
structure Extension where
  default_guilds : Option (List Int)
deriving DecidableEq, Repr

/-- Local slash-command descriptor (dawn.slash.SlashCommand): name,
description, guild ids (the constructor turns None into []), ordered options,
and the optional owning extension back-reference. -/
structure SlashCommand where
  name : String
  description : String
  guild_ids : List Int
  options : List CommandOption
  extension : Option Extension
deriving DecidableEq, Repr

/-- Local slash sub-command descriptor (dawn SlashSubCommand). -/
structure SlashSubCommand where
  name : String
  description : String
  options : List CommandOption
deriving DecidableEq, Repr

/-- Local slash group descriptor (dawn SlashGroup): subcommands in insertion
order (the values of the _subcommands dict). -/
structure SlashGroup where
  name : String
  description : String
  guild_ids : List Int
  subcommands : List SlashSubCommand
  extension : Option Extension
deriving DecidableEq, Repr

/-- Remote snapshot of a registered slash command, in the view used by
CommandManager._handle_global_command (a hikari.SlashCommand: name,
description, options possibly None). -/
structure RemoteCommand where
  name : String
  description : String
  options : Option (List CommandOption)
deriving DecidableEq, Repr

/-- Remote snapshot in the view used by CommandManager._handle_global_groups,
where the options of a group-shaped command are sub-command options. -/
structure RemoteGroupCommand where
  name : String
  description : String
  options : Option (List SubCommandOption)
deriving DecidableEq, Repr

/-- SlashCommand._compare_with (slash.py lines 177-187), kept verbatim: the
source compares the tuple (option.name, option.description, option.type)
against (option_c.name, option_c.description, option.type) -- the third
component is the local option's own kind on both sides, so the remote kind is
never consulted. -/
def SlashCommand.compareWith (self : SlashCommand) (command : RemoteCommand) : Bool :=
  self.name == command.name
    && self.description == command.description
    && self.options.length == (command.options.getD []).length
    && (self.options.zip (command.options.getD [])).all
        (fun p => (p.1.name, p.1.description, p.1.type) == (p.2.name, p.2.description, p.1.type))

/-- SlashSubCommand._compare_with, with the same self-comparison of the local
option kind in the third tuple component as SlashCommand._compare_with. -/
def SlashSubCommand.compareWith (self : SlashSubCommand) (option : SubCommandOption) : Bool :=
  self.name == option.name
    && self.description == option.description
    && self.options.length == (option.options.getD []).length
    && (self.options.zip (option.options.getD [])).all
        (fun p => (p.1.name, p.1.description, p.1.type) == (p.2.name, p.2.description, p.1.type))

/-- Payload of rest.slash_command_builder(name, description) after the
add_option loop. -/
structure CommandBuilder where
  name : String
  description : String
  options : List CommandOption
deriving DecidableEq, Repr

/-- Builder payload for a group: its sub-commands built as options. -/
structure GroupBuilder where
  name : String
  description : String
  options : List SubCommandOption
deriving DecidableEq, Repr

/-- The builder constructed for a command: its name, description and options. -/
def buildCommand (c : SlashCommand) : CommandBuilder :=
  ⟨c.name, c.description, c.options⟩

/-- SlashSubCommand._build_as_option: a SUB_COMMAND option wrapping the
sub-command's own options. -/
def SlashSubCommand.buildAsOption (s : SlashSubCommand) : SubCommandOption :=
  ⟨OptionType.SUB_COMMAND, s.name, s.description, some s.options⟩

/-- The builder constructed for a group: each sub-command built as an option. -/
def buildGroupCommand (g : SlashGroup) : GroupBuilder :=
  ⟨g.name, g.description, g.subcommands.map SlashSubCommand.buildAsOption⟩

/-- The library's exception values relevant here, plus Python's ValueError
(raised by list.index on a missing element). -/
inductive DawnError where
  | botNotInitialised
  | commandAlreadyExists (name : String)
  | valueError
deriving DecidableEq, Repr

/-- The REST calls the reconciler can issue. -/
inductive RestCall where
  | fetchApplicationCommands
  | setApplicationCommands (payload : List CommandBuilder)
  | create (builder : CommandBuilder) (guild : Option Int)
  | setApplicationGroupCommands (payload : List GroupBuilder)
  | createGroup (builder : GroupBuilder) (guild : Option Int)
deriving DecidableEq, Repr

/-- The bot state the reconciler reads: registry values in insertion order,
the purge_extra flag, bot-level default_guilds (None when unset), and the
bot's own identity (get_me() is None before the gateway handshake). -/
structure Bot where
  slash_commands : List SlashCommand
  slash_groups : List SlashGroup
  purge_extra : Bool
  default_guilds : Option (List Int)
  me : Option Int
deriving Repr

/-- Python truthiness of an optional list of guild ids: None and [] are falsy. -/
def truthyGuilds : Option (List Int) → Bool
  | none => false
  | some l => !l.isEmpty

/-- Bot._has_guild_binded, parametrised over the descriptor's guild_ids and
extension so the same duck-typed method covers commands and groups: any of the
explicit guild_ids, the owning extension's default_guilds (the literal [] when
there is no extension) and the bot-level default_guilds is truthy. -/
def Bot.hasGuildBinded (bot : Bot) (guild_ids : List Int) (ext : Option Extension) : Bool :=
  !guild_ids.isEmpty
    || (match ext with
        | some e => truthyGuilds e.default_guilds
        | none => false)
    || truthyGuilds bot.default_guilds

/-- Bot._has_guild_binded applied to a command. -/
def Bot.commandHasGuildBinded (bot : Bot) (c : SlashCommand) : Bool :=
  bot.hasGuildBinded c.guild_ids c.extension

/-- Bot._has_guild_binded applied to a group. -/
def Bot.groupHasGuildBinded (bot : Bot) (g : SlashGroup) : Bool :=
  bot.hasGuildBinded g.guild_ids g.extension

/-- command_names.index(name) fused with the subsequent all_commands[index]
subscript: the first index whose entry carries the given name, together with
that entry (command_names is the elementwise name list of all_commands, so the
fused lookup is the same two steps of the source).  Python list.index raises
ValueError when no entry matches. -/
def findIndexed {α : Type} (nameOf : α → String) :
    List α → String → Except DawnError (Nat × α)
  | [], _ => Except.error DawnError.valueError
  | c :: cs, x =>
    if nameOf c == x then Except.ok (0, c)
    else (findIndexed nameOf cs x).map (fun p => (p.1 + 1, p.2))

/-- One iteration of the incremental loop in
CommandManager._handle_global_command (internals.py lines 133-147).  The
source guard is written `if not (index := command_names.index(command.name))`,
so a name matched at index 0 takes the create branch; otherwise the command is
compared against the matched entry and created again on mismatch.  A missing
name propagates ValueError out of list.index. -/
def handleOneGlobalCommand (all_commands : List RemoteCommand) (command : SlashCommand) :
    Except DawnError (List RestCall) :=
  match findIndexed RemoteCommand.name all_commands command.name with
  | Except.error e => Except.error e
  | Except.ok (index, g_command) =>
    if index == 0 then
      Except.ok [RestCall.create (buildCommand command) none]
    else if command.compareWith g_command then
      Except.ok []
    else
      Except.ok [RestCall.create (buildCommand command) none]

/-- Sequential loop over descriptors accumulating the issued calls; an
exception aborts the loop, keeping the calls issued before it. -/
def runLoop {α : Type} (step : α → Except DawnError (List RestCall)) :
    List α → List RestCall × Option DawnError
  | [] => ([], none)
  | a :: as =>
    match step a with
    | Except.error e => ([], some e)
    | Except.ok t =>
      match runLoop step as with
      | (ts, e) => (t ++ ts, e)

/-- CommandManager._handle_global_command: the identity check, then either the
purge_extra bulk overwrite of the guild-unbound commands or the incremental
fetch-and-diff loop over all registered commands.  `remote` is the
environment's response to fetch_application_commands, already restricted to
slash commands (the isinstance filter of internals.py lines 126-130).  The
result is the list of issued REST calls and the raised exception, if any. -/
def handleGlobalCommand (bot : Bot) (remote : List RemoteCommand) :
    List RestCall × Option DawnError :=
  match bot.me with
  | none => ([], some DawnError.botNotInitialised)
  | some _ =>
    if bot.purge_extra then
      ([RestCall.setApplicationCommands
          ((bot.slash_commands.filter
              (fun c => bot.commandHasGuildBinded c == false)).map buildCommand)],
        none)
    else
      match runLoop (handleOneGlobalCommand remote) bot.slash_commands with
      | (ts, e) => (RestCall.fetchApplicationCommands :: ts, e)

/-- Python `xs or ys` on two lists (an empty list is falsy). -/
def pyOr (xs ys : List Int) : List Int :=
  if xs.isEmpty then ys else xs

/-- The `command.extension.default_guilds if command.extension else []`
subterm; None collapses to the falsy []. -/
def extGuilds : Option Extension → List Int
  | some e => e.default_guilds.getD []
  | none => []

/-- The guild iteration source `command.guild_ids or (extension default) or
self.default_guilds or []`: the first truthy element of the chain. -/
def effectiveGuilds (bot : Bot) (guild_ids : List Int) (ext : Option Extension) : List Int :=
  pyOr guild_ids (pyOr (extGuilds ext) (bot.default_guilds.getD []))

/-- CommandManager._handle_guild_commands: the identity check, then one create
call per effective guild for every guild-bound command, in order. -/
def handleGuildCommands (bot : Bot) : List RestCall × Option DawnError :=
  match bot.me with
  | none => ([], some DawnError.botNotInitialised)
  | some _ =>
    ((bot.slash_commands.filter (fun c => bot.commandHasGuildBinded c)).flatMap
        (fun c => (effectiveGuilds bot c.guild_ids c.extension).map
          (fun g => RestCall.create (buildCommand c) (some g))),
      none)

/-- The groups view of the fetched commands: those whose options are present
and whose first option is a SUB_COMMAND (internals.py lines 39-45; hikari
never reports a present-but-empty option list, so that case is excluded). -/
def groupRemoteFilter (c : RemoteGroupCommand) : Bool :=
  match c.options with
  | none => false
  | some [] => false
  | some (o :: _) => o.type == OptionType.SUB_COMMAND

/-- One iteration of the incremental loop in
CommandManager._handle_global_groups (internals.py lines 47-78), with the same
`if not index` shape as the command loop and the group-level structural
comparison of lines 57-71. -/
def handleOneGlobalGroup (all_commands : List RemoteGroupCommand) (group : SlashGroup) :
    Except DawnError (List RestCall) :=
  match findIndexed RemoteGroupCommand.name all_commands group.name with
  | Except.error e => Except.error e
  | Except.ok (index, g_command) =>
    if index == 0 then
      Except.ok [RestCall.createGroup (buildGroupCommand group) none]
    else if (g_command.name == group.name
        && g_command.description == group.description
        && (g_command.options.getD []).length == group.subcommands.length
        && (group.subcommands.zip (g_command.options.getD [])).all
            (fun p => p.1.compareWith p.2)) then
      Except.ok []
    else
      Except.ok [RestCall.createGroup (buildGroupCommand group) none]

/-- CommandManager._handle_global_groups: identity check, then the purge_extra
bulk overwrite of the guild-unbound groups or the incremental loop over all
registered groups against the group-shaped remote entries. -/
def handleGlobalGroups (bot : Bot) (remote : List RemoteGroupCommand) :
    List RestCall × Option DawnError :=
  match bot.me with
  | none => ([], some DawnError.botNotInitialised)
  | some _ =>
    if bot.purge_extra then
      ([RestCall.setApplicationGroupCommands
          ((bot.slash_groups.filter
              (fun g => bot.groupHasGuildBinded g == false)).map buildGroupCommand)],
        none)
    else
      match runLoop (handleOneGlobalGroup (remote.filter groupRemoteFilter)) bot.slash_groups with
      | (ts, e) => (RestCall.fetchApplicationCommands :: ts, e)

/-- CommandManager._handle_guild_groups: identity check, then one create call
per effective guild for every guild-bound group. -/
def handleGuildGroups (bot : Bot) : List RestCall × Option DawnError :=
  match bot.me with
  | none => ([], some DawnError.botNotInitialised)
  | some _ =>
    ((bot.slash_groups.filter (fun g => bot.groupHasGuildBinded g)).flatMap
        (fun g => (effectiveGuilds bot g.guild_ids g.extension).map
          (fun gid => RestCall.createGroup (buildGroupCommand g) (some gid))),
      none)

/-- Association list with Python-dict insertion semantics: overwriting an
existing key keeps its original position, a fresh key is appended. -/
def dictInsert {α : Type} (m : List (String × α)) (k : String) (v : α) : List (String × α) :=
  match m with
  | [] => [(k, v)]
  | (k0, v0) :: rest => if k0 == k then (k, v) :: rest else (k0, v0) :: dictInsert rest k v

/-- Python dict.get: the value under the key, None when absent. -/
def dictGet {α : Type} (m : List (String × α)) (k : String) : Option α :=
  match m with
  | [] => none
  | (k0, v0) :: rest => if k0 == k then some v0 else dictGet rest k

/-- Bot.add_slash_command (bot.py lines 99-111): raises CommandAlreadyExists
when the name is already a key of _slash_commands (descriptor objects are
always truthy, so dict.get doubles as the membership test); on the error path
the map is unchanged because the insert never runs.  The Bot object carries
only the command map. -/
def addSlashCommand (m : List (String × SlashCommand)) (command : SlashCommand) :
    List (String × SlashCommand) × Option DawnError :=
  match dictGet m command.name with
  | some _ => (m, some (DawnError.commandAlreadyExists command.name))
  | none => (dictInsert m command.name command, none)

/-- The two registry maps owned by an Extension. -/
structure ExtensionState where
  slash_commands : List (String × SlashCommand)
  slash_groups : List (String × SlashGroup)
deriving Repr

/-- Extension.register (extensions.py lines 96-116): the collision check
consults only the _slash_commands map. -/
def extRegisterCommand (st : ExtensionState) (command : SlashCommand) :
    ExtensionState × Option DawnError :=
  match dictGet st.slash_commands command.name with
  | some _ => (st, some (DawnError.commandAlreadyExists command.name))
  | none =>
    ({ st with slash_commands := dictInsert st.slash_commands command.name command }, none)

/-- Extension.add_slash_group (extensions.py lines 139-152): the collision
check consults both maps.  The group's back-reference to the extension is set
on success; it is not tracked here. -/
def extAddSlashGroup (st : ExtensionState) (group : SlashGroup) :
    ExtensionState × Option DawnError :=
  if (dictGet st.slash_groups group.name).isSome
      || (dictGet st.slash_commands group.name).isSome then
    (st, some (DawnError.commandAlreadyExists group.name))
  else
    ({ st with slash_groups := dictInsert st.slash_groups group.name group }, none)

/-- A raw interaction option value.  hikari.Snowflake is a subclass of int, so
a snowflake satisfies isinstance(value, int) as well. -/
inductive PyValue where
  | vint (isSnowflake : Bool) (n : Int)
  | vstr (s : String)
  | vbool (b : Bool)
deriving DecidableEq, Repr

/-- isinstance(value, int); true for plain ints and snowflakes. -/
def PyValue.isInstInt : PyValue → Bool
  | PyValue.vint _ _ => true
  | _ => false

/-- isinstance(value, hikari.Snowflake). -/
def PyValue.isInstSnowflake : PyValue → Bool
  | PyValue.vint s _ => s
  | _ => false

/-- The integer carried by an int-like value (only read under isInstInt). -/
def PyValue.asInt : PyValue → Int
  | PyValue.vint _ n => n
  | _ => 0

/-- A cached guild channel object, by id. -/
structure GuildChannel where
  id : Int
deriving DecidableEq, Repr

/-- A member object, by guild and user id. -/
structure Member where
  guild_id : Int
  user_id : Int
deriving DecidableEq, Repr

/-- A cached role object, by id. -/
structure Role where
  id : Int
deriving DecidableEq, Repr

/-- A resolved attachment object, by id. -/
structure Attachment where
  id : Int
deriving DecidableEq, Repr

/-- The bot-side capabilities Bot.invoke_slash_command reads: the local cache
lookups (None on miss, no I/O) and rest.fetch_member (a network call, modelled
as always returning a member). -/
structure DispatchEnv where
  get_guild_channel : Int → Option GuildChannel
  get_member : Int → Int → Option Member
  get_role : Int → Option Role
  fetch_member : Int → Int → Member

/-- One option of an incoming command interaction. -/
structure InteractionOption where
  type : OptionType
  name : String
  value : PyValue
deriving DecidableEq, Repr

/-- The interaction's resolved-objects side-table (inter.resolved). -/
structure ResolvedData where
  attachments : Int → Option Attachment

/-- The slice of an InteractionCreateEvent the dispatcher reads.
isCommandInteraction is the isinstance(inter, CommandInteraction) test;
options and resolved may be absent (None). -/
structure Interaction where
  isCommandInteraction : Bool
  command_name : String
  guild_id : Option Int
  options : Option (List InteractionOption)
  resolved : Option ResolvedData

/-- A value stored into the kwargs dict by the resolution loop. -/
inductive ResolvedValue where
  | channel (c : Option GuildChannel)
  | member (m : Member)
  | role (r : Option Role)
  | attachment (a : Option Attachment)
  | raw (v : PyValue)
  | pynone
deriving DecidableEq, Repr

/-- The network calls the dispatcher can make while resolving options. -/
inductive FetchCall where
  | fetchMember (guild : Int) (user : Int)
deriving DecidableEq, Repr

/-- How a call to Bot.invoke_slash_command ends: the isinstance early return,
the bare `return` taken when an ATTACHMENT option finds inter.resolved absent,
or the callback call carrying the built kwargs dict. -/
inductive InvokeOutcome where
  | notCommandInteraction
  | silentReturn
  | invoked (kwargs : List (String × ResolvedValue))
deriving DecidableEq, Repr

/-- Python falsiness of inter.guild_id as tested by `if not inter.guild_id` in
the ROLE branch: None and Snowflake(0) are falsy.  (The USER branch instead
tests `is None`.) -/
def pyFalsyGuild : Option Int → Bool
  | none => true
  | some g => g == 0

/-- Resolution of a single interaction option: the if/elif chain of
Bot.invoke_slash_command (bot.py lines 173-196).  `none` is the bare `return`
taken when an ATTACHMENT option finds inter.resolved absent; otherwise the
resolved value and the network calls made for it. -/
def resolveOption (env : DispatchEnv) (inter : Interaction) (opt : InteractionOption) :
    Option (ResolvedValue × List FetchCall) :=
  if opt.type == OptionType.CHANNEL && opt.value.isInstInt then
    some (ResolvedValue.channel (env.get_guild_channel opt.value.asInt), [])
  else if opt.type == OptionType.USER && opt.value.isInstInt then
    match inter.guild_id with
    | none => some (ResolvedValue.pynone, [])
    | some g_id =>
      match env.get_member g_id opt.value.asInt with
      | some m => some (ResolvedValue.member m, [])
      | none =>
        some (ResolvedValue.member (env.fetch_member g_id opt.value.asInt),
          [FetchCall.fetchMember g_id opt.value.asInt])
  else if opt.type == OptionType.ROLE && opt.value.isInstInt then
    if pyFalsyGuild inter.guild_id then some (ResolvedValue.pynone, [])
    else some (ResolvedValue.role (env.get_role opt.value.asInt), [])
  else if opt.type == OptionType.ATTACHMENT && opt.value.isInstSnowflake then
    match inter.resolved with
    | none => none
    | some res => some (ResolvedValue.attachment (res.attachments opt.value.asInt), [])
  else
    some (ResolvedValue.raw opt.value, [])

/-- The `for opt in inter.options or []` loop: builds the kwargs dict in
option order, accumulating network calls; a bare return from an option aborts
the loop keeping the calls already made. -/
def resolveLoop (env : DispatchEnv) (inter : Interaction) :
    List InteractionOption → List (String × ResolvedValue) → List FetchCall →
    Option (List (String × ResolvedValue)) × List FetchCall
  | [], kwargs, calls => (some kwargs, calls)
  | opt :: rest, kwargs, calls =>
    match resolveOption env inter opt with
    | none => (none, calls)
    | some (v, cs) => resolveLoop env inter rest (dictInsert kwargs opt.name v) (calls ++ cs)

/-- Bot.invoke_slash_command (bot.py lines 156-197): re-checks the interaction
kind, resolves inter.options (or []) into the kwargs dict, then reaches the
call `await command(self.get_slash_context(event), *kwargs)`.  The outcome
records the kwargs dict; starUnpack below gives the argument list that call
actually passes. -/
def invokeSlashCommand (env : DispatchEnv) (inter : Interaction) :
    InvokeOutcome × List FetchCall :=
  if inter.isCommandInteraction == false then
    (InvokeOutcome.notCommandInteraction, [])
  else
    match resolveLoop env inter (inter.options.getD []) [] [] with
    | (none, calls) => (InvokeOutcome.silentReturn, calls)
    | (some kwargs, calls) => (InvokeOutcome.invoked kwargs, calls)

/-- A positional argument of the callback call. -/
inductive CallbackArg where
  | context
  | strArg (s : String)
deriving DecidableEq, Repr

/-- The positional argument list of `command(self.get_slash_context(event),
*kwargs)`: iterating a Python dict yields its keys, so the single-star unpack
passes the context followed by the option NAMES, not the resolved values. -/
def starUnpack (kwargs : List (String × ResolvedValue)) : List CallbackArg :=
  CallbackArg.context :: kwargs.map (fun p => CallbackArg.strArg p.1)

/-- The first non-empty list of the chain, [] when all are empty: the fallback
order the spec states for guild-scope resolution. -/
def firstNonEmpty : List (List Int) → List Int
  | [] => []
  | l :: ls => if l.isEmpty then firstNonEmpty ls else l

/-- A local command with a single INTEGER option, used as concrete input. -/
def pingLocal : SlashCommand :=
  ⟨"ping", "d", [], [⟨OptionType.INTEGER, "text", "td"⟩], none⟩

/-- A remote snapshot of pingLocal differing only in the option kind. -/
def pingRemoteStr : RemoteCommand :=
  ⟨"ping", "d", some [⟨OptionType.STRING, "text", "td"⟩]⟩

/-- A remote snapshot structurally identical to pingLocal. -/
def pingRemoteExact : RemoteCommand :=
  ⟨"ping", "d", some [⟨OptionType.INTEGER, "text", "td"⟩]⟩

/-- An unrelated remote command occupying index 0. -/
def fillerRemote : RemoteCommand := ⟨"zzz", "z", some []⟩

/-- An incremental-mode bot owning only pingLocal. -/
def incBot : Bot := ⟨[pingLocal], [], false, none, some 1⟩

/-- A purge_extra bot owning only pingLocal. -/
def purgeBot : Bot := ⟨[pingLocal], [], true, none, some 1⟩

/-- A bot whose identity is not yet available. -/
def notReadyBot : Bot := ⟨[pingLocal], [], false, none, none⟩

/-- A dispatch environment whose caches are empty. -/
def emptyEnv : DispatchEnv :=
  ⟨fun _ => none, fun _ _ => none, fun _ => none, fun g u => ⟨g, u⟩⟩

/-- A dispatch environment caching exactly guild channel 9. -/
def c8Env : DispatchEnv :=
  ⟨fun i => if i == 9 then some ⟨9⟩ else none, fun _ _ => none, fun _ => none,
    fun g u => ⟨g, u⟩⟩

/-- A STRING interaction option named text with value hello. -/
def c3Opt : InteractionOption := ⟨OptionType.STRING, "text", PyValue.vstr "hello"⟩

/-- A command interaction carrying c3Opt. -/
def c3Inter : Interaction := ⟨true, "echo", none, some [c3Opt], none⟩

/-- An ATTACHMENT option carrying a snowflake value. -/
def c7Opt : InteractionOption := ⟨OptionType.ATTACHMENT, "file", PyValue.vint true 9⟩

/-- A command interaction carrying c7Opt with no resolved side-table. -/
def c7Inter : Interaction := ⟨true, "up", none, some [c7Opt], none⟩

/-- A CHANNEL option carrying snowflake 9. -/
def c8Opt : InteractionOption := ⟨OptionType.CHANNEL, "ch", PyValue.vint true 9⟩

/-- A command interaction carrying c8Opt. -/
def c8Inter : Interaction := ⟨true, "mv", some 3, some [c8Opt], none⟩

/-- A command interaction whose options field is absent. -/
def c10Inter : Interaction := ⟨true, "ping", none, none, none⟩

/-- A group and a command sharing the name x. -/
def c4Group : SlashGroup := ⟨"x", "gd", [], [], none⟩

/-- A command whose name collides with c4Group. -/
def c4Cmd : SlashCommand := ⟨"x", "cd", [], [], none⟩

/-- A guild-bindable command: no explicit guilds, extension default [5]. -/
def c6Cmd : SlashCommand := ⟨"gp", "gd", [], [], some ⟨some [5]⟩⟩

/-- A bot owning c6Cmd with bot-level default guilds [7]. -/
def c6Bot : Bot := ⟨[c6Cmd], [], false, some [7], some 1⟩

theorem pyOr_chain (a b c : List Int) :
    pyOr a (pyOr b c) = firstNonEmpty [a, b, c] := by
  cases a <;> cases b <;> cases c <;> rfl

/-- Claim C1: in incremental mode an exactly matching remote entry yields zero
create/update calls, and any field difference (an option kind alone included)
yields an update call.  The code refutes both halves: matched at index 1 with
only the option kind differing, _compare_with returns true (it compares the
local kind with itself) and no call is issued; matched at index 0 with a
structurally identical entry, the `if not index` guard takes the create
branch and a create call is issued anyway. -/
theorem c1_incremental_compare_bugs :
    handleGlobalCommand incBot [fillerRemote, pingRemoteStr]
        = ([RestCall.fetchApplicationCommands], none)
      ∧ pingLocal.compareWith pingRemoteStr = true
      ∧ pingLocal.options.map CommandOption.type
          ≠ (pingRemoteStr.options.getD []).map CommandOption.type
      ∧ handleGlobalCommand incBot [pingRemoteExact]
        = ([RestCall.fetchApplicationCommands,
            RestCall.create (buildCommand pingLocal) none], none) := by
  refine ⟨rfl, rfl, ?_, rfl⟩
  decide

/-- Claim C2: in incremental mode a local command absent from the remote list
gets exactly one create call and no error.  The code instead propagates
Python's ValueError out of command_names.index and issues no create call. -/
theorem c2_absent_name_raises_valueerror :
    handleGlobalCommand incBot [fillerRemote]
      = ([RestCall.fetchApplicationCommands], some DawnError.valueError) := rfl

/-- Claim C5: with purge_extra set, the global phase issues exactly one
bulk-replace call whose payload is exactly the guild-unbound local commands,
independently of the remote state, and no per-command create or update call. -/
theorem c5_purge_single_bulk_call (bot : Bot) (remote : List RemoteCommand) (u : Int)
    (hp : bot.purge_extra = true) (hm : bot.me = some u) :
    handleGlobalCommand bot remote
      = ([RestCall.setApplicationCommands
            ((bot.slash_commands.filter
                (fun c => bot.commandHasGuildBinded c == false)).map buildCommand)],
          none) := by
  unfold handleGlobalCommand
  rw [hm, hp]
  rfl

/-- Witness for c5_purge_single_bulk_call at a concrete bot and remote list. -/
theorem c5_purge_single_bulk_call_witness :
    handleGlobalCommand purgeBot [pingRemoteStr]
      = ([RestCall.setApplicationCommands
            ((purgeBot.slash_commands.filter
                (fun c => purgeBot.commandHasGuildBinded c == false)).map buildCommand)],
          none) :=
  c5_purge_single_bulk_call purgeBot [pingRemoteStr] 1 rfl rfl

/-- Claim C9: with the bot identity unavailable, each of the four
reconciliation phases raises BotNotInitialised having issued no REST call. -/
theorem c9_not_ready_no_calls (bot : Bot) (remote : List RemoteCommand)
    (gremote : List RemoteGroupCommand) (hm : bot.me = none) :
    handleGlobalCommand bot remote = ([], some DawnError.botNotInitialised)
      ∧ handleGuildCommands bot = ([], some DawnError.botNotInitialised)
      ∧ handleGlobalGroups bot gremote = ([], some DawnError.botNotInitialised)
      ∧ handleGuildGroups bot = ([], some DawnError.botNotInitialised) := by
  unfold handleGlobalCommand handleGuildCommands handleGlobalGroups handleGuildGroups
  rw [hm]
  exact ⟨rfl, rfl, rfl, rfl⟩

/-- Witness for c9_not_ready_no_calls at a concrete uninitialised bot. -/
theorem c9_not_ready_no_calls_witness :
    handleGlobalCommand notReadyBot [] = ([], some DawnError.botNotInitialised)
      ∧ handleGuildCommands notReadyBot = ([], some DawnError.botNotInitialised)
      ∧ handleGlobalGroups notReadyBot [] = ([], some DawnError.botNotInitialised)
      ∧ handleGuildGroups notReadyBot = ([], some DawnError.botNotInitialised) :=
  c9_not_ready_no_calls notReadyBot [] [] rfl

theorem hasGuildBinded_eq_chain (bot : Bot) (gids : List Int) (ext : Option Extension) :
    bot.hasGuildBinded gids ext
      = !(pyOr gids (pyOr (extGuilds ext) (bot.default_guilds.getD []))).isEmpty := by
  rcases ext with _ | ⟨_ | el⟩ <;>
    rcases hdg : bot.default_guilds with _ | dl <;>
    cases gids <;>
    simp [Bot.hasGuildBinded, pyOr, extGuilds, truthyGuilds, hdg] <;>
    cases el <;> simp

/-- Claim C6: the guild phase targets, for a guild-bound command, exactly the
first non-empty element of the chain explicit guild_ids, extension
default_guilds, bot default_guilds, issuing one create call per guild in that
set; a command for which the whole chain is empty is skipped with no calls. -/
theorem c6_guild_fallback_chain (bot : Bot) (c : SlashCommand) (u : Int)
    (hm : bot.me = some u) (hcmds : bot.slash_commands = [c]) :
    handleGuildCommands bot
      = ((firstNonEmpty [c.guild_ids, extGuilds c.extension, bot.default_guilds.getD []]).map
            (fun g => RestCall.create (buildCommand c) (some g)),
          none) := by
  unfold handleGuildCommands
  rw [hm, hcmds, ← pyOr_chain]
  by_cases hb : bot.commandHasGuildBinded c
  · simp [List.filter, hb, effectiveGuilds]
  · rw [Bool.not_eq_true] at hb
    have h2 := hasGuildBinded_eq_chain bot c.guild_ids c.extension
    rw [show bot.hasGuildBinded c.guild_ids c.extension = bot.commandHasGuildBinded c from rfl,
      hb] at h2
    have h3 : pyOr c.guild_ids (pyOr (extGuilds c.extension) (bot.default_guilds.getD [])) = [] := by
      rw [← List.isEmpty_iff]
      rcases h4 : (pyOr c.guild_ids (pyOr (extGuilds c.extension) (bot.default_guilds.getD []))).isEmpty
      · rw [h4] at h2; cases h2
      · rfl
    rw [h3]
    simp [List.filter, hb]

/-- Witness for c6_guild_fallback_chain: with no explicit guild_ids, extension
default [5] and bot default [7], exactly one create call for guild 5. -/
theorem c6_guild_fallback_chain_witness :
    handleGuildCommands c6Bot
      = ([RestCall.create (buildCommand c6Cmd) (some 5)], none) := by
  have h := c6_guild_fallback_chain c6Bot c6Cmd 1 rfl rfl
  exact h

/-- Claim C3: the dispatcher invokes the callback with the context plus the
resolved option values.  The code builds the kwargs dict correctly but then
unpacks it with a single star, so the callback actually receives the option
NAMES as positional arguments, not the resolved values. -/
theorem c3_names_passed_positionally :
    invokeSlashCommand emptyEnv c3Inter
        = (InvokeOutcome.invoked [("text", ResolvedValue.raw (PyValue.vstr "hello"))], [])
      ∧ starUnpack [("text", ResolvedValue.raw (PyValue.vstr "hello"))]
        = [CallbackArg.context, CallbackArg.strArg "text"] := ⟨rfl, rfl⟩

theorem resolveLoop_attachment_no_resolved (env : DispatchEnv) (inter : Interaction)
    (hr : inter.resolved = none) :
    ∀ (opts : List InteractionOption) (kwargs : List (String × ResolvedValue))
      (calls : List FetchCall),
      (∃ o ∈ opts, o.type = OptionType.ATTACHMENT ∧ o.value.isInstSnowflake = true) →
      (resolveLoop env inter opts kwargs calls).1 = none := by
  intro opts
  induction opts with
  | nil =>
    intro kwargs calls h
    rcases h with ⟨o, ho, _⟩
    exact absurd ho (List.not_mem_nil o)
  | cons a rest ih =>
    intro kwargs calls h
    rcases h with ⟨o, ho, hT, hS⟩
    rcases List.mem_cons.mp ho with h1 | h2
    · subst h1
      have hstep : resolveOption env inter o = none := by
        unfold resolveOption
        simp [hT, hS, hr]
      unfold resolveLoop
      rw [hstep]
    · rcases hstep : resolveOption env inter a with _ | ⟨v, cs⟩
      · unfold resolveLoop
        rw [hstep]
      · unfold resolveLoop
        rw [hstep]
        exact ih _ _ ⟨o, h2, hT, hS⟩

/-- Claim C7, amended: when a dispatched interaction carries an ATTACHMENT
option with a snowflake value and the resolved-objects side-table is absent,
the dispatcher silently returns early; the callback is not invoked and no
error is signalled. -/
theorem c7_attachment_missing_resolved_silent (env : DispatchEnv) (inter : Interaction)
    (hc : inter.isCommandInteraction = true) (hr : inter.resolved = none)
    (hopt : ∃ o ∈ inter.options.getD [],
        o.type = OptionType.ATTACHMENT ∧ o.value.isInstSnowflake = true) :
    (invokeSlashCommand env inter).1 = InvokeOutcome.silentReturn := by
  unfold invokeSlashCommand
  rw [hc]
  have h := resolveLoop_attachment_no_resolved env inter hr (inter.options.getD []) [] [] hopt
  rcases hres : resolveLoop env inter (inter.options.getD []) [] [] with ⟨onk, calls⟩
  rw [hres] at h
  simp only at h
  subst h
  rfl

/-- Witness for c7_attachment_missing_resolved_silent at a concrete
attachment-carrying interaction with no resolved side-table. -/
theorem c7_attachment_missing_resolved_silent_witness :
    (invokeSlashCommand emptyEnv c7Inter).1 = InvokeOutcome.silentReturn := by
  have h := c7_attachment_missing_resolved_silent emptyEnv c7Inter rfl rfl
    ⟨c7Opt, by simp [c7Inter], rfl, rfl⟩
  exact h

/-- Claim C7, counterexample to the claim as stated: at the concrete input the
dispatch completes with the bare-return outcome -- no protocol-violation error
is raised or surfaced; the absence is silently ignored (the callback is indeed
not invoked, but nothing signals the caller). -/
theorem c7_counterexample_no_error_surfaced :
    invokeSlashCommand emptyEnv c7Inter = (InvokeOutcome.silentReturn, []) := rfl

/-- Claim C8: a CHANNEL option carrying an integer identifier resolves to the
local cache lookup result (the cached object, or None on a miss) with no
network call, and that value is what lands in the kwargs dict. -/
theorem c8_channel_cache_only (env : DispatchEnv) (inter : Interaction)
    (opt : InteractionOption) (snow : Bool) (n : Int)
    (ht : opt.type = OptionType.CHANNEL) (hv : opt.value = PyValue.vint snow n)
    (hc : inter.isCommandInteraction = true) (hopts : inter.options = some [opt]) :
    resolveOption env inter opt
        = some (ResolvedValue.channel (env.get_guild_channel n), [])
      ∧ invokeSlashCommand env inter
        = (InvokeOutcome.invoked
            [(opt.name, ResolvedValue.channel (env.get_guild_channel n))], []) := by
  have h1 : resolveOption env inter opt
      = some (ResolvedValue.channel (env.get_guild_channel n), []) := by
    unfold resolveOption
    rw [ht, hv]
    rfl
  refine ⟨h1, ?_⟩
  unfold invokeSlashCommand
  rw [hc, hopts]
  show (match resolveLoop env inter [opt] [] [] with
    | (none, calls) => (InvokeOutcome.silentReturn, calls)
    | (some kwargs, calls) => (InvokeOutcome.invoked kwargs, calls)) = _
  unfold resolveLoop
  rw [h1]
  rfl

/-- Witness for c8_channel_cache_only: channel 9 is cached, so the kwargs
value is the cached object. -/
theorem c8_channel_cache_only_witness :
    resolveOption c8Env c8Inter c8Opt
        = some (ResolvedValue.channel (some ⟨9⟩), [])
      ∧ invokeSlashCommand c8Env c8Inter
        = (InvokeOutcome.invoked [("ch", ResolvedValue.channel (some ⟨9⟩))], []) := by
  have h := c8_channel_cache_only c8Env c8Inter c8Opt true 9 rfl rfl rfl rfl
  exact h

/-- Claim C10: an interaction whose options field is absent dispatches without
error: the kwargs dict stays empty and the callback is invoked with just the
context argument. -/
theorem c10_absent_options_total (env : DispatchEnv) (inter : Interaction)
    (hc : inter.isCommandInteraction = true) (ho : inter.options = none) :
    invokeSlashCommand env inter = (InvokeOutcome.invoked [], [])
      ∧ starUnpack [] = [CallbackArg.context] := by
  constructor
  · unfold invokeSlashCommand
    rw [hc, ho]
    rfl
  · rfl

/-- Witness for c10_absent_options_total at a concrete optionless interaction. -/
theorem c10_absent_options_total_witness :
    invokeSlashCommand emptyEnv c10Inter = (InvokeOutcome.invoked [], [])
      ∧ starUnpack [] = [CallbackArg.context] :=
  c10_absent_options_total emptyEnv c10Inter rfl rfl

/-- Claim C4, amended: Bot.add_slash_command and Extension.register fail with
CommandAlreadyExists exactly when the exact command name is already a key of
the respective command map (groups are not consulted and no case folding
happens); Extension.add_slash_group fails exactly when the exact group name is
a key of either extension map; a failing call leaves the maps unchanged and a
fresh-name call inserts the descriptor. -/
theorem c4_exact_name_collision_rules (m : List (String × SlashCommand))
    (st : ExtensionState) (c : SlashCommand) (g : SlashGroup) :
    ((dictGet m c.name).isSome = true →
        addSlashCommand m c = (m, some (DawnError.commandAlreadyExists c.name)))
    ∧ (dictGet m c.name = none →
        addSlashCommand m c = (dictInsert m c.name c, none))
    ∧ ((dictGet st.slash_commands c.name).isSome = true →
        extRegisterCommand st c = (st, some (DawnError.commandAlreadyExists c.name)))
    ∧ (dictGet st.slash_commands c.name = none →
        extRegisterCommand st c
          = ({ st with slash_commands := dictInsert st.slash_commands c.name c }, none))
    ∧ ((dictGet st.slash_groups g.name).isSome = true
          ∨ (dictGet st.slash_commands g.name).isSome = true →
        extAddSlashGroup st g = (st, some (DawnError.commandAlreadyExists g.name)))
    ∧ (dictGet st.slash_groups g.name = none ∧ dictGet st.slash_commands g.name = none →
        extAddSlashGroup st g
          = ({ st with slash_groups := dictInsert st.slash_groups g.name g }, none)) := by
  refine ⟨?_, ?_, ?_, ?_, ?_, ?_⟩
  · intro h
    unfold addSlashCommand
    rcases hd : dictGet m c.name with _ | v
    · rw [hd] at h; cases h
    · rfl
  · intro h
    unfold addSlashCommand
    rw [h]
  · intro h
    unfold extRegisterCommand
    rcases hd : dictGet st.slash_commands c.name with _ | v
    · rw [hd] at h; cases h
    · rfl
  · intro h
    unfold extRegisterCommand
    rw [h]
  · intro h
    unfold extAddSlashGroup
    rcases h with h | h <;> simp [h]
  · intro h
    unfold extAddSlashGroup
    simp [h.1, h.2]

/-- Witness for c4_exact_name_collision_rules: re-registering the same command
name fails and leaves the map unchanged. -/
theorem c4_exact_name_collision_rules_witness :
    addSlashCommand [("x", c4Cmd)] c4Cmd
      = ([("x", c4Cmd)], some (DawnError.commandAlreadyExists "x")) := by
  have h := (c4_exact_name_collision_rules [("x", c4Cmd)] ⟨[], []⟩ c4Cmd c4Group).1 rfl
  exact h

/-- Claim C4, counterexample to the claim as stated: registering a command
whose name equals an already-registered group name on the same extension
succeeds (no DuplicateNameError) and inserts it, because Extension.register
consults only the command map. -/
theorem c4_counterexample_command_shadows_group :
    (extRegisterCommand (extAddSlashGroup ⟨[], []⟩ c4Group).1 c4Cmd).2 = none
      ∧ dictGet
          (extRegisterCommand (extAddSlashGroup ⟨[], []⟩ c4Group).1 c4Cmd).1.slash_commands "x"
        = some c4Cmd
      ∧ dictGet
          (extRegisterCommand (extAddSlashGroup ⟨[], []⟩ c4Group).1 c4Cmd).1.slash_groups "x"
        = some c4Group := ⟨rfl, rfl, rfl⟩

end Dawn
